import Mathlib

set_option autoImplicit false

/-!
Shallow embedding of `src/book_recommendation.py` (class `BookRecommendationEDA`),
an exploratory-data-analysis script over three CSV tables (Books, Users, Ratings).

Dataframes are modelled as lists of row structures.  A CSV cell that
`pd.to_numeric(..., errors="coerce")` would parse as a number is represented by
`Cell.num q`; a cell it would coerce to NaN is `Cell.str s`; a missing (NaN)
cell is `Cell.null`.  Ratings are natural numbers (the Book-Rating column is an
integer column, 0 meaning implicit feedback).  Averages are rationals.
-/

/-- A CSV cell as seen through `pd.to_numeric(..., errors="coerce")`:
either a numeric value, a non-numeric string, or missing (NaN). -/
inductive Cell where
  | num : ℚ → Cell
  | str : String → Cell
  | null : Cell
  deriving DecidableEq, Repr

/-- `pd.to_numeric(x, errors="coerce")` on one cell: numbers stay, everything
else becomes the missing marker (`none` = NaN). -/
def toNumeric : Cell → Option ℚ
  | .num q => some q
  | .str _ => none
  | .null => none

/-- The cell after the coercion (NaN represented by `Cell.null`). -/
def coerceCell (c : Cell) : Cell :=
  match toNumeric c with
  | some q => .num q
  | none => .null

/-- One row of `Books.csv`: ISBN, title, author (None = NaN), publication year
(raw cell), publisher, cover-image URL columns. -/
structure BookRow where
  isbn : String
  title : String
  author : Option String
  year : Cell
  publisher : String
  imageUrl : String
  deriving DecidableEq, Repr

/-- One row of `Users.csv`: user id, age cell (possibly non-numeric or missing),
location string. -/
structure UserRow where
  userId : ℕ
  age : Cell
  location : String
  deriving DecidableEq, Repr

/-- One row of `Ratings.csv`: user id, ISBN, Book-Rating (0 = implicit). -/
structure RatingRow where
  userId : ℕ
  isbn : String
  bookRating : ℕ
  deriving DecidableEq, Repr

/-- The mutable dataframe attributes of the `BookRecommendationEDA` object
(`self.books_df`, `self.users_df`, `self.ratings_df`); `none` = not loaded. -/
structure EDAState where
  booksDf : Option (List BookRow)
  usersDf : Option (List UserRow)
  ratingsDf : Option (List RatingRow)
  deriving DecidableEq, Repr

/-- The state right after `__init__`: all three dataframes are `None`. -/
def initState : EDAState := ⟨none, none, none⟩

/-- `load_data`: reads Books.csv, then Users.csv, then Ratings.csv, assigning
each dataframe as soon as its read succeeds.  A failed read (`none` input,
modelling a raised exception) stops the sequence and returns `false`; if all
three reads succeed it returns `true`.  The returned state records which
assignments happened before the failure. -/
def load_data (s : EDAState) (books : Option (List BookRow))
    (users : Option (List UserRow)) (ratings : Option (List RatingRow)) :
    EDAState × Bool :=
  match books with
  | none => (s, false)
  | some b =>
    let s1 : EDAState := ⟨some b, s.usersDf, s.ratingsDf⟩
    match users with
    | none => (s1, false)
    | some u =>
      let s2 : EDAState := ⟨some b, some u, s.ratingsDf⟩
      match ratings with
      | none => (s2, false)
      | some r => (⟨some b, some u, some r⟩, true)

/-! ## analyze_users: age filtering -/

/-- The valid ages analyzed by `analyze_users`:
`pd.to_numeric(self.users_df["Age"], errors="coerce")`, then `.dropna()`, then
the range filter `(valid_ages > 0) & (valid_ages < 120)`. -/
def valid_ages (users : List UserRow) : List ℚ :=
  ((users.map (fun u => toNumeric u.age)).filterMap id).filter
    (fun q => 0 < q ∧ q < 120)

/-! ## analyze_books_for_tenancy -/

/-- `fillna("Unknown Author")` on one Book-Author cell. -/
def fillnaAuthor (a : Option String) : Option String :=
  some (a.getD "Unknown Author")

/-- The effect of `analyze_books_for_tenancy` on `self.books_df`: it fills
missing Book-Author values with "Unknown Author" (line 105) and coerces
Year-Of-Publication to numeric with `errors="coerce"` (line 185).  All other
columns are only read. -/
def books_after_analysis (books : List BookRow) : List BookRow :=
  books.map (fun b =>
    ⟨b.isbn, b.title, fillnaAuthor b.author, coerceCell b.year,
      b.publisher, b.imageUrl⟩)

/-- The Book-Author column after the `fillna` (the values `value_counts` runs
over in `analyze_books_for_tenancy`). -/
def authorColumn (books : List BookRow) : List String :=
  books.map (fun b => b.author.getD "Unknown Author")

/-- Number of books credited to author `a` (the `value_counts` entry for `a`). -/
def bookCount (books : List BookRow) (a : String) : ℕ :=
  (authorColumn books).count a

/-- The unique authors (the index of `author_stats`). -/
def authorFinset (books : List BookRow) : Finset String :=
  (authorColumn books).toFinset

/-- `single_book_authors = (author_stats == 1).sum()`. -/
def single_book_authors (books : List BookRow) : ℕ :=
  ((authorFinset books).filter (fun a => bookCount books a = 1)).card

/-- `multi_book_authors = (author_stats > 1).sum()`. -/
def multi_book_authors (books : List BookRow) : ℕ :=
  ((authorFinset books).filter (fun a => 1 < bookCount books a)).card

/-- `prolific_authors = (author_stats >= 10).sum()`. -/
def prolific_authors (books : List BookRow) : ℕ :=
  ((authorFinset books).filter (fun a => 10 ≤ bookCount books a)).card

/-- `super_authors = (author_stats >= 50).sum()`. -/
def super_authors (books : List BookRow) : ℕ :=
  ((authorFinset books).filter (fun a => 50 ≤ bookCount books a)).card

/-- The four pie-chart values of the "Author Categories Distribution" panel
(lines 174-179), as the integers Python computes:
`[single, multi - prolific, prolific - super, super]`. -/
def pieValues (books : List BookRow) : List ℤ :=
  [(single_book_authors books : ℤ),
   (multi_book_authors books : ℤ) - prolific_authors books,
   (prolific_authors books : ℤ) - super_authors books,
   (super_authors books : ℤ)]

/-! ## analyze_ratings -/

/-- The distinct rating values (the index of
`self.ratings_df["Book-Rating"].value_counts()`). -/
def ratingValues (ratings : List RatingRow) : Finset ℕ :=
  (ratings.map (fun r => r.bookRating)).toFinset

/-- The `value_counts` entry for rating value `v`. -/
def ratingCount (ratings : List RatingRow) (v : ℕ) : ℕ :=
  (ratings.map (fun r => r.bookRating)).count v

/-- The percentage printed for rating value `v`:
`count / len(self.ratings_df) * 100`. -/
def ratingPercentage (ratings : List RatingRow) (v : ℕ) : ℚ :=
  (ratingCount ratings v : ℚ) / (ratings.length : ℚ) * 100

/-! ## merge_and_analyze -/

/-- A row of `ratings_books = self.ratings_df.merge(self.books_df, on="ISBN",
how="left")`: the rating row together with the matched book row (`none` when
no book has that ISBN, in which case the book columns are NaN). -/
structure MergedRow where
  rating : RatingRow
  book : Option BookRow
  deriving DecidableEq, Repr

/-- The left merge of ratings with books on ISBN: each rating row is paired
with every matching book row, or with `none` when there is no match. -/
def merge_ratings_books (ratings : List RatingRow) (books : List BookRow) :
    List MergedRow :=
  ratings.flatMap (fun r =>
    let ms := books.filter (fun b => b.isbn = r.isbn)
    if ms.isEmpty then [⟨r, none⟩] else ms.map (fun b => ⟨r, some b⟩))

/-- The Book-Author cell of a merged row (NaN = `none` when the ISBN matched
no book). -/
def mAuthor (m : MergedRow) : Option String :=
  m.book.bind (fun b => b.author)

/-- `rated_books = ratings_books[ratings_books["Book-Rating"] > 0]`. -/
def rated_books (merged : List MergedRow) : List MergedRow :=
  merged.filter (fun m => 0 < m.rating.bookRating)

/-- The implicit-feedback count printed at lines 400-402:
`len(ratings_books) - len(rated_books)`. -/
def implicitFeedbackCount (merged : List MergedRow) : ℕ :=
  merged.length - (rated_books merged).length

/-- The rows of `rated_books` grouped under author `a`
(`groupby("Book-Author")` drops rows whose author is NaN). -/
def authorGroup (merged : List MergedRow) (a : String) : List MergedRow :=
  (rated_books merged).filter (fun m => mAuthor m = some a)

/-- The group keys of `rated_books.groupby("Book-Author")`: the distinct
non-NaN authors among the rated rows. -/
def ratedAuthors (merged : List MergedRow) : List String :=
  ((rated_books merged).filterMap mAuthor).dedup

/-- The `"count"` aggregate for author `a`: number of rated rows. -/
def authorRatingCount (merged : List MergedRow) (a : String) : ℕ :=
  (authorGroup merged a).length

/-- The `"mean"` aggregate for author `a` (before rounding): sum of the
Book-Rating values of the group divided by the group size. -/
def authorRatingMean (merged : List MergedRow) (a : String) : ℚ :=
  (((authorGroup merged a).map (fun m => (m.rating.bookRating : ℚ))).sum) /
    (authorRatingCount merged a : ℚ)

/-- Rounding half to even to an integer (numpy/pandas `round` tie rule). -/
def roundHalfEven (q : ℚ) : ℤ :=
  let f := q.floor
  if q - f < 1 / 2 then f
  else if q - f = 1 / 2 then (if f % 2 = 0 then f else f + 1)
  else f + 1

/-- Pandas `.round(2)` on one value. -/
def round2 (q : ℚ) : ℚ := (roundHalfEven (q * 100) : ℚ) / 100

/-- The sample variance of the group's ratings (the square of the `"std"`
aggregate, ddof = 1).  The standard deviation itself is an irrational square
root in general, so the embedding carries its square; `0` when the group has
fewer than two rows (pandas reports NaN there). -/
def authorRatingVarSq (merged : List MergedRow) (a : String) : ℚ :=
  if authorRatingCount merged a ≤ 1 then 0
  else (((authorGroup merged a).map
      (fun m => ((m.rating.bookRating : ℚ) - authorRatingMean merged a) ^ 2)).sum) /
    ((authorRatingCount merged a : ℚ) - 1)

/-- The `ISBN: "nunique"` aggregate for author `a`. -/
def authorUniqueBooks (merged : List MergedRow) (a : String) : ℕ :=
  ((authorGroup merged a).map (fun m => m.rating.isbn)).dedup.length

/-- One row of the `author_performance` dataframe (after the column renaming
at lines 411-416).  `avgRating` is the rounded mean; `ratingVarSq` stands for
the squared `Rating_Std` column (see `authorRatingVarSq`). -/
structure AuthorPerf where
  author : String
  totalRatings : ℕ
  avgRating : ℚ
  ratingVarSq : ℚ
  uniqueBooks : ℕ
  deriving DecidableEq, Repr

/-- The `author_performance` row built for group key `a`. -/
def authorPerfRow (merged : List MergedRow) (a : String) : AuthorPerf :=
  ⟨a, authorRatingCount merged a, round2 (authorRatingMean merged a),
    authorRatingVarSq merged a, authorUniqueBooks merged a⟩

/-- `author_performance` as computed at lines 405-422: group `rated_books` by
author, aggregate, keep rows with `Total_Ratings >= 10`, and sort by
`Total_Ratings` descending (`sort_values` uses an unstable quicksort, so the
order among ties is unspecified; a stable structural sort stands in for it). -/
def author_performance (merged : List MergedRow) : List AuthorPerf :=
  List.insertionSort (fun p q => q.totalRatings ≤ p.totalRatings)
    (((ratedAuthors merged).map (authorPerfRow merged)).filter
      (fun p => 10 ≤ p.totalRatings))

/-! ## tenant_recommendations -/

/-- Tier 1 filter (lines 558-561): `Total_Ratings >= 1000` and
`Avg_Rating >= 7.5`. -/
def tier1 (ap : List AuthorPerf) : List AuthorPerf :=
  ap.filter (fun p => 1000 ≤ p.totalRatings ∧ (15 : ℚ) / 2 ≤ p.avgRating)

/-- Tier 2 filter (lines 564-570): `Total_Ratings >= 500` and
`Avg_Rating >= 7.0`, excluding authors whose index is in `tier1.index`. -/
def tier2 (ap : List AuthorPerf) : List AuthorPerf :=
  ap.filter (fun p =>
    (500 ≤ p.totalRatings ∧ (7 : ℚ) ≤ p.avgRating) ∧
      p.author ∉ (tier1 ap).map (fun q => q.author))

/-- Tier 3 filter (lines 573-578): `Total_Ratings >= 100` and
`Avg_Rating >= 6.5`, excluding authors indexed in tier 1 or tier 2. -/
def tier3 (ap : List AuthorPerf) : List AuthorPerf :=
  ap.filter (fun p =>
    100 ≤ p.totalRatings ∧ (13 : ℚ) / 2 ≤ p.avgRating ∧
      p.author ∉ (tier1 ap).map (fun q => q.author) ∧
      p.author ∉ (tier2 ap).map (fun q => q.author))

/-- The long-tail count printed at lines 610-612:
`len(author_performance) - len(tier1) - len(tier2) - len(tier3)`
(a Python integer, hence ℤ). -/
def longTailCount (ap : List AuthorPerf) : ℤ :=
  (ap.length : ℤ) - (tier1 ap).length - (tier2 ap).length - (tier3 ap).length

/-! ## run_complete_analysis -/

/-- The chart files written by `plt.savefig` during a successful run, in the
order the analysis methods execute (lines 198, 277, 381, 547). -/
def savedChartFiles : List String :=
  ["author_tenant_analysis.png", "user_analysis.png", "rating_analysis.png",
   "merged_analysis.png"]

/-- The names of the analysis steps `run_complete_analysis` invokes after a
successful load (lines 695-701). -/
def analysisStepNames : List String :=
  ["basic_info", "analyze_books_for_tenancy", "analyze_users",
   "analyze_ratings", "merge_and_analyze", "tenant_recommendations",
   "generate_summary_report"]

/-- The dictionary `run_complete_analysis` returns on success, restricted to
the parts the claims are about. -/
structure AnalysisResults where
  authorPerformance : List AuthorPerf
  tenantTier1 : List AuthorPerf
  tenantTier2 : List AuthorPerf
  tenantTier3 : List AuthorPerf
  deriving DecidableEq, Repr

/-- The analysis body run on the loaded dataframes: books are mutated by
`analyze_books_for_tenancy`, then `merge_and_analyze` merges ratings with the
mutated books and `tenant_recommendations` tiers its `author_performance`. -/
def analysisBody (books : List BookRow) (ratings : List RatingRow) :
    AnalysisResults :=
  let merged := merge_ratings_books ratings (books_after_analysis books)
  let ap := author_performance merged
  ⟨ap, tier1 ap, tier2 ap, tier3 ap⟩

/-- The observable outcome of `run_complete_analysis`: the final attribute
state, the returned dictionary (`none` = the bare `return` at line 692), the
analysis steps that ran, and the chart files written. -/
structure RunOutput where
  state : EDAState
  result : Option AnalysisResults
  stepsRun : List String
  savedFiles : List String
  deriving DecidableEq, Repr

/-- `run_complete_analysis` (lines 685-718): load the three CSVs; on failure
return immediately with no analysis; on success run every analysis step on
the loaded dataframes and return the results dictionary. -/
def run_complete_analysis (books : Option (List BookRow))
    (users : Option (List UserRow)) (ratings : Option (List RatingRow)) :
    RunOutput :=
  let lr := load_data initState books users ratings
  if lr.2 then
    let bks := lr.1.booksDf.getD []
    let rs := lr.1.ratingsDf.getD []
    ⟨⟨some (books_after_analysis bks), lr.1.usersDf, lr.1.ratingsDf⟩,
      some (analysisBody bks rs), analysisStepNames, savedChartFiles⟩
  else ⟨lr.1, none, [], []⟩

/-! ## Concrete inputs used by witnesses and counterexamples -/

/-- A one-row books table whose author cell is missing (NaN). -/
def bookMissingAuthor : BookRow := ⟨"i0", "t0", none, .str "19xx", "P0", "u0"⟩

/-- A small books table for witnesses. -/
def booksEx : List BookRow := [⟨"i1", "t1", some "A", .str "2000", "P", "u"⟩]

/-- A small users table for witnesses. -/
def usersEx : List UserRow := [⟨1, .str "25", "somewhere"⟩]

/-- A small ratings table for witnesses. -/
def ratingsEx : List RatingRow := [⟨1, "i1", 8⟩]

/-- A small users table whose only age cell is numeric. -/
def usersAgeEx : List UserRow := [⟨7, .num 25, "city, country"⟩]

/-- A small author-performance table with one row in each tier and one in the
long tail. -/
def apEx : List AuthorPerf :=
  [⟨"A", 1200, 8, 0, 3⟩, ⟨"B", 600, 7, 0, 2⟩, ⟨"C", 150, 7, 0, 1⟩,
   ⟨"D", 12, 5, 0, 1⟩]

/-- A small ratings table for the rating-distribution witness. -/
def ratingsDistEx : List RatingRow := [⟨1, "i1", 8⟩, ⟨2, "i1", 0⟩, ⟨3, "i2", 8⟩]

/-- A small merged table: one actual rating and one implicit-feedback row,
both for author "A". -/
def mergedEx : List MergedRow :=
  [⟨⟨1, "i1", 8⟩, some ⟨"i1", "t1", some "A", .null, "P", "u"⟩⟩,
   ⟨⟨2, "i1", 0⟩, some ⟨"i1", "t1", some "A", .null, "P", "u"⟩⟩]

/-- A small books table for the author-category witness. -/
def booksCatEx : List BookRow :=
  [⟨"j1", "s1", some "X", .null, "P", "u"⟩,
   ⟨"j2", "s2", some "Y", .null, "P", "u"⟩,
   ⟨"j3", "s3", some "Y", .null, "P", "u"⟩]

/-! ## Sanity examples (concrete evaluations of the embedding) -/

example :
    valid_ages [⟨1, .num 25, "x"⟩, ⟨2, .str "abc", "y"⟩, ⟨3, .null, "z"⟩,
      ⟨4, .num 0, "w"⟩, ⟨5, .num 120, "v"⟩, ⟨6, .num 119, "u"⟩] =
      [25, 119] := by decide

example :
    load_data initState (some []) (some []) none =
      (⟨some [], some [], none⟩, false) := by decide

example :
    merge_ratings_books
        [⟨1, "i1", 8⟩, ⟨1, "i1", 0⟩, ⟨2, "i3", 5⟩]
        [⟨"i1", "t1", some "A", .num 2000, "P", "u"⟩] =
      [⟨⟨1, "i1", 8⟩, some ⟨"i1", "t1", some "A", .num 2000, "P", "u"⟩⟩,
       ⟨⟨1, "i1", 0⟩, some ⟨"i1", "t1", some "A", .num 2000, "P", "u"⟩⟩,
       ⟨⟨2, "i3", 5⟩, none⟩] := by decide

example :
    (author_performance
        (merge_ratings_books
          (List.range 12 |>.map (fun i => ⟨i, "i1", 8⟩))
          [⟨"i1", "t1", some "A", .str "2000", "P", "u"⟩])).map
      (fun p => (p.author, p.totalRatings, p.uniqueBooks)) =
      [("A", 12, 1)] := by decide

example :
    ratedAuthors
        (merge_ratings_books [⟨1, "i1", 8⟩, ⟨1, "i1", 0⟩, ⟨2, "i2", 7⟩]
          [⟨"i1", "t1", some "A", .null, "P", "u"⟩,
           ⟨"i2", "t2", some "B", .null, "P", "u"⟩]) = ["A", "B"] := by decide

example :
    (run_complete_analysis (some [⟨"i1", "t1", some "A", .num 2000, "P", "u"⟩])
        (some []) (some [⟨1, "i1", 8⟩])).savedFiles.length = 4 := by decide

/-! ## Claim C4 -/

/-- Claim C4: the valid ages analyzed by `analyze_users` are exactly the Age
values that parse as numbers and lie strictly inside `(0, 120)`: non-numeric
ages are coerced to a missing marker and dropped, and values `<= 0` or
`>= 120` are excluded. -/
theorem valid_ages_mem_iff (users : List UserRow) (q : ℚ) :
    q ∈ valid_ages users ↔
      (∃ u ∈ users, toNumeric u.age = some q) ∧ 0 < q ∧ q < 120 := by
  simp only [valid_ages, List.mem_filter, List.mem_filterMap, List.mem_map,
    id_eq, decide_eq_true_eq]
  constructor
  · rintro ⟨⟨c, ⟨u, hu, rfl⟩, hc⟩, hq⟩
    exact ⟨⟨u, hu, hc⟩, hq⟩
  · rintro ⟨⟨u, hu, hc⟩, hq⟩
    exact ⟨⟨toNumeric u.age, ⟨u, hu, rfl⟩, hc⟩, hq⟩

/-- Witness for C4 at a concrete users table and age value. -/
theorem valid_ages_mem_iff_instance :
    (25 : ℚ) ∈ valid_ages usersAgeEx ↔
      (∃ u ∈ usersAgeEx, toNumeric u.age = some 25) ∧
        (0 : ℚ) < 25 ∧ (25 : ℚ) < 120 :=
  valid_ages_mem_iff usersAgeEx 25

/-! ## Claim C9 -/

/-- Claim C9: `load_data` is not atomic on failure: the reads happen in the
fixed order Books, Users, Ratings, and a later failure leaves the dataframes
from earlier successful reads assigned even though `load_data` returns
`False`: a Ratings failure leaves books and users loaded, and a Users failure
leaves books loaded. -/
theorem load_data_not_atomic (bks : List BookRow) (us : List UserRow)
    (r : Option (List RatingRow)) :
    load_data initState (some bks) (some us) none =
        (⟨some bks, some us, none⟩, false) ∧
    load_data initState (some bks) none r = (⟨some bks, none, none⟩, false) :=
  ⟨rfl, rfl⟩

/-! ## Claim C3 -/

/-- Claim C3: `load_data` returns `True` exactly when all three CSV reads
succeed; when it returns the failure flag, `run_complete_analysis` performs
none of the analysis steps, writes no charts, and returns without a result. -/
theorem load_failure_aborts_pipeline (books : Option (List BookRow))
    (users : Option (List UserRow)) (ratings : Option (List RatingRow)) :
    ((load_data initState books users ratings).2 = true ↔
      books.isSome ∧ users.isSome ∧ ratings.isSome) ∧
    ((load_data initState books users ratings).2 = false →
      (run_complete_analysis books users ratings).result = none ∧
      (run_complete_analysis books users ratings).stepsRun = [] ∧
      (run_complete_analysis books users ratings).savedFiles = []) := by
  cases books <;> cases users <;> cases ratings <;>
    simp [load_data, run_complete_analysis, initState]

/-- Witness for C3: a failed Books read aborts the run with no steps, no
charts and no result. -/
theorem load_failure_aborts_pipeline_instance :
    (run_complete_analysis none (some usersEx) (some ratingsEx)).result =
        none ∧
    (run_complete_analysis none (some usersEx) (some ratingsEx)).stepsRun =
        [] ∧
    (run_complete_analysis none (some usersEx) (some ratingsEx)).savedFiles =
        [] :=
  (load_failure_aborts_pipeline none (some usersEx) (some ratingsEx)).2 rfl

/-! ## Claim C6 -/

/-- Counterexample to C6 as stated: on a books table whose only row has a
missing Book-Author, the analysis changes the Book-Author column (the
`fillna` at line 105), so a column other than Year-Of-Publication is mutated. -/
theorem books_mutation_counterexample :
    ¬ ((books_after_analysis [bookMissingAuthor]).map (fun b => b.author) =
      [bookMissingAuthor].map (fun b => b.author)) := by decide

/-- Claim C6 (amended): the analysis steps leave every column of the books
table unchanged except Year-Of-Publication (coerced to numeric) and
Book-Author, which is changed only by filling missing values with
"Unknown Author" (non-missing authors are unchanged). -/
theorem books_frame_effect (books : List BookRow) :
    (books_after_analysis books).map (fun b => b.isbn) =
        books.map (fun b => b.isbn) ∧
    (books_after_analysis books).map (fun b => b.title) =
        books.map (fun b => b.title) ∧
    (books_after_analysis books).map (fun b => b.publisher) =
        books.map (fun b => b.publisher) ∧
    (books_after_analysis books).map (fun b => b.imageUrl) =
        books.map (fun b => b.imageUrl) ∧
    (books_after_analysis books).map (fun b => b.author) =
        books.map (fun b => fillnaAuthor b.author) ∧
    (books_after_analysis books).map (fun b => b.year) =
        books.map (fun b => coerceCell b.year) ∧
    (∀ s : String, fillnaAuthor (some s) = some s) ∧
    fillnaAuthor none = some "Unknown Author" := by
  refine ⟨?_, ?_, ?_, ?_, ?_, ?_, fun s => rfl, rfl⟩ <;>
    simp [books_after_analysis]

/-! ## Claim C7 -/

/-- Counterexample to C7 as stated: a successful run writes four chart files,
not five (`plt.savefig` occurs at lines 198, 277, 381 and 547 only). -/
theorem five_png_counterexample :
    (run_complete_analysis (some booksEx) (some usersEx)
        (some ratingsEx)).result.isSome = true ∧
    ¬ ((run_complete_analysis (some booksEx) (some usersEx)
        (some ratingsEx)).savedFiles.length = 5) := by
  constructor
  · rfl
  · intro h
    simp [run_complete_analysis, load_data, initState, savedChartFiles] at h

/-- Claim C7 (amended): every successful run of `run_complete_analysis` emits
exactly the four PNG chart files with fixed names. -/
theorem saved_chart_files_of_success (books : Option (List BookRow))
    (users : Option (List UserRow)) (ratings : Option (List RatingRow))
    (h : (run_complete_analysis books users ratings).result.isSome = true) :
    (run_complete_analysis books users ratings).savedFiles =
        savedChartFiles ∧
    savedChartFiles.length = 4 := by
  refine ⟨?_, rfl⟩
  rw [run_complete_analysis] at h ⊢
  by_cases hl : (load_data initState books users ratings).2
  · simp [hl]
  · simp [hl] at h

/-- Witness for C7 (amended) at a concrete successful run. -/
theorem saved_chart_files_of_success_instance :
    (run_complete_analysis (some booksEx) (some usersEx)
        (some ratingsEx)).savedFiles = savedChartFiles ∧
    savedChartFiles.length = 4 :=
  saved_chart_files_of_success (some booksEx) (some usersEx) (some ratingsEx)
    rfl

/-! ## Claim C10 -/

/-- Authors counted in one category are a subset of a weaker category when the
book-count threshold is weaker. -/
theorem authorFilter_subset (books : List BookRow) (p q : String → Prop)
    [DecidablePred p] [DecidablePred q] (h : ∀ a, p a → q a) :
    (authorFinset books).filter p ⊆ (authorFinset books).filter q := by
  intro a ha
  rw [Finset.mem_filter] at ha ⊢
  exact ⟨ha.1, h a ha.2⟩

/-- Every author in the `value_counts` index has at least one book. -/
theorem one_le_bookCount_of_mem (books : List BookRow) (a : String)
    (ha : a ∈ authorFinset books) : 1 ≤ bookCount books a := by
  rw [authorFinset, List.mem_toFinset] at ha
  exact List.count_pos_iff.2 ha

/-- The single-book and multi-book counts partition the unique authors. -/
theorem single_add_multi (books : List BookRow) :
    single_book_authors books + multi_book_authors books =
      (authorFinset books).card := by
  classical
  have hpart := Finset.filter_card_add_filter_neg_card_eq_card
    (s := authorFinset books) (p := fun a => bookCount books a = 1)
  have hfe : (authorFinset books).filter (fun a => ¬ bookCount books a = 1) =
      (authorFinset books).filter (fun a => 1 < bookCount books a) := by
    apply Finset.filter_congr
    intro a ha
    have h1 := one_le_bookCount_of_mem books a ha
    constructor
    · intro h2
      omega
    · intro h2
      omega
  rw [hfe] at hpart
  rw [single_book_authors, multi_book_authors]
  exact hpart

/-- Claim C10: the author categories are nested (50+ implies 10+ implies 2+),
and the four pie-chart values are non-negative and sum exactly to the number
of unique authors. -/
theorem author_categories_partition (books : List BookRow) :
    (authorFinset books).filter (fun a => 50 ≤ bookCount books a) ⊆
        (authorFinset books).filter (fun a => 10 ≤ bookCount books a) ∧
    (authorFinset books).filter (fun a => 10 ≤ bookCount books a) ⊆
        (authorFinset books).filter (fun a => 1 < bookCount books a) ∧
    (∀ v ∈ pieValues books, 0 ≤ v) ∧
    (pieValues books).sum = ((authorFinset books).card : ℤ) := by
  have hsub1 : (authorFinset books).filter (fun a => 50 ≤ bookCount books a) ⊆
      (authorFinset books).filter (fun a => 10 ≤ bookCount books a) :=
    authorFilter_subset books _ _ (fun a h => by omega)
  have hsub2 : (authorFinset books).filter (fun a => 10 ≤ bookCount books a) ⊆
      (authorFinset books).filter (fun a => 1 < bookCount books a) :=
    authorFilter_subset books _ _ (fun a h => by omega)
  have hc1 : super_authors books ≤ prolific_authors books :=
    Finset.card_le_card hsub1
  have hc2 : prolific_authors books ≤ multi_book_authors books :=
    Finset.card_le_card hsub2
  have hpart := single_add_multi books
  refine ⟨hsub1, hsub2, ?_, ?_⟩
  · intro v hv
    rw [pieValues] at hv
    simp only [List.mem_cons, List.not_mem_nil, or_false] at hv
    rcases hv with h | h | h | h <;> rw [h] <;> omega
  · rw [pieValues]
    simp only [List.sum_cons, List.sum_nil, add_zero]
    omega

/-- Witness for C10 at a concrete books table (authors X with one book and Y
with two books). -/
theorem author_categories_partition_instance :
    (authorFinset booksCatEx).filter (fun a => 50 ≤ bookCount booksCatEx a) ⊆
        (authorFinset booksCatEx).filter
          (fun a => 10 ≤ bookCount booksCatEx a) ∧
    (authorFinset booksCatEx).filter (fun a => 10 ≤ bookCount booksCatEx a) ⊆
        (authorFinset booksCatEx).filter
          (fun a => 1 < bookCount booksCatEx a) ∧
    (∀ v ∈ pieValues booksCatEx, 0 ≤ v) ∧
    (pieValues booksCatEx).sum = ((authorFinset booksCatEx).card : ℤ) :=
  author_categories_partition booksCatEx

/-! ## Claim C8 -/

/-- Claim C8: for a non-empty ratings table, the per-rating counts sum to the
total number of rating rows, and the printed percentages
(`count / total * 100`) sum to exactly 100 in exact rational arithmetic. -/
theorem rating_distribution_sums (ratings : List RatingRow)
    (h : ratings ≠ []) :
    (∑ v ∈ ratingValues ratings, ratingCount ratings v) = ratings.length ∧
    (∑ v ∈ ratingValues ratings, ratingPercentage ratings v) = 100 := by
  have hcount : (∑ v ∈ ratingValues ratings, ratingCount ratings v) =
      ratings.length := by
    have hm := Multiset.toFinset_sum_count_eq
      ((ratings.map (fun r => r.bookRating)) : Multiset ℕ)
    simp only [Multiset.coe_count, Multiset.coe_card] at hm
    rw [ratingValues]
    simp only [ratingCount]
    rw [← List.length_map ratings (fun r => r.bookRating)]
    exact hm
  refine ⟨hcount, ?_⟩
  have hn0 : ratings.length ≠ 0 := by
    intro h0
    exact h (List.length_eq_zero.1 h0)
  have hn : (ratings.length : ℚ) ≠ 0 := Nat.cast_ne_zero.2 hn0
  calc
    (∑ v ∈ ratingValues ratings, ratingPercentage ratings v) =
        (∑ v ∈ ratingValues ratings, (ratingCount ratings v : ℚ)) /
          (ratings.length : ℚ) * 100 := by
      rw [Finset.sum_div, Finset.sum_mul]
      rfl
    _ = 100 := by
      rw [← Nat.cast_sum, hcount, div_self hn, one_mul]

/-- Witness for C8 at a concrete non-empty ratings table. -/
theorem rating_distribution_sums_instance :
    (∑ v ∈ ratingValues ratingsDistEx, ratingCount ratingsDistEx v) =
        ratingsDistEx.length ∧
    (∑ v ∈ ratingValues ratingsDistEx, ratingPercentage ratingsDistEx v) =
        100 :=
  rating_distribution_sums ratingsDistEx (by decide)

/-! ## Claim C5 -/

/-- Claim C5: `merge_and_analyze` treats rating 0 as implicit feedback: the
actual ratings are exactly the merged rows with Book-Rating > 0, the
implicit-feedback count and the actual-ratings count sum to the total number
of rating-book combinations, and the per-author aggregates (count, mean, and
with them the grouped standard deviation) are computed over the actual
(positive) ratings only. -/
theorem merge_implicit_feedback_split (merged : List MergedRow) (a : String) :
    (∀ m : MergedRow, m ∈ rated_books merged ↔
      m ∈ merged ∧ 0 < m.rating.bookRating) ∧
    implicitFeedbackCount merged + (rated_books merged).length =
      merged.length ∧
    authorGroup merged a = merged.filter
      (fun m => 0 < m.rating.bookRating ∧ mAuthor m = some a) ∧
    authorRatingCount merged a = (merged.filter
      (fun m => 0 < m.rating.bookRating ∧ mAuthor m = some a)).length ∧
    authorRatingMean merged a = ((merged.filter
      (fun m => 0 < m.rating.bookRating ∧ mAuthor m = some a)).map
        (fun m => (m.rating.bookRating : ℚ))).sum /
      (authorRatingCount merged a : ℚ) := by
  have hgroup : authorGroup merged a = merged.filter
      (fun m => 0 < m.rating.bookRating ∧ mAuthor m = some a) := by
    rw [authorGroup, rated_books, List.filter_filter]
    apply List.filter_congr
    intro m hm
    simp [Bool.and_comm]
  refine ⟨?_, ?_, hgroup, ?_, ?_⟩
  · intro m
    simp [rated_books, List.mem_filter]
  · have hle : (rated_books merged).length ≤ merged.length :=
      List.length_filter_le _ _
    rw [implicitFeedbackCount]
    omega
  · rw [authorRatingCount, hgroup]
  · rw [authorRatingMean, hgroup]

/-- Witness for C5 at a concrete merged table with one actual rating and one
implicit-feedback row for author "A". -/
theorem merge_implicit_feedback_split_instance :
    (∀ m : MergedRow, m ∈ rated_books mergedEx ↔
      m ∈ mergedEx ∧ 0 < m.rating.bookRating) ∧
    implicitFeedbackCount mergedEx + (rated_books mergedEx).length =
      mergedEx.length ∧
    authorGroup mergedEx "A" = mergedEx.filter
      (fun m => 0 < m.rating.bookRating ∧ mAuthor m = some "A") ∧
    authorRatingCount mergedEx "A" = (mergedEx.filter
      (fun m => 0 < m.rating.bookRating ∧ mAuthor m = some "A")).length ∧
    authorRatingMean mergedEx "A" = ((mergedEx.filter
      (fun m => 0 < m.rating.bookRating ∧ mAuthor m = some "A")).map
        (fun m => (m.rating.bookRating : ℚ))).sum /
      (authorRatingCount mergedEx "A" : ℚ) :=
  merge_implicit_feedback_split mergedEx "A"

/-! ## Claim C2 -/

/-- Claim C2: the three tier counts plus the printed long-tail count (total
minus the tier counts) equal the number of rows of `author_performance`, and
that row count is exactly the number of unique authors with at least 10
actual ratings. -/
theorem tier_counts_add_long_tail (merged : List MergedRow) :
    ((tier1 (author_performance merged)).length : ℤ) +
      ((tier2 (author_performance merged)).length : ℤ) +
      ((tier3 (author_performance merged)).length : ℤ) +
      longTailCount (author_performance merged) =
      ((author_performance merged).length : ℤ) ∧
    (author_performance merged).length =
      ((ratedAuthors merged).filter
        (fun a => 10 ≤ authorRatingCount merged a)).length := by
  constructor
  · rw [longTailCount]
    ring
  · rw [author_performance, List.length_insertionSort, List.filter_map,
      List.length_map]
    rfl

/-! ## Claim C1 -/

/-- With pairwise-distinct author names, an author name occurs among a
sublist's names exactly when the row itself is in the sublist. -/
theorem author_name_mem_iff {ap sub : List AuthorPerf} {p : AuthorPerf}
    (h : (ap.map (fun q => q.author)).Nodup) (hsub : sub ⊆ ap)
    (hp : p ∈ ap) :
    p.author ∈ sub.map (fun q => q.author) ↔ p ∈ sub := by
  constructor
  · intro hmem
    rcases List.mem_map.1 hmem with ⟨q, hq, hqa⟩
    have hqp : q = p := List.inj_on_of_nodup_map h (hsub hq) hp hqa
    rw [← hqp]
    exact hq
  · intro hmem
    exact List.mem_map_of_mem _ hmem

/-- Claim C1: on an author-performance table with distinct author rows,
tier 1 holds exactly the rows with 1000+ ratings and 7.5+ average, tier 2
exactly those with 500+ ratings and 7.0+ average that are not in tier 1,
tier 3 exactly those with 100+ ratings and 6.5+ average in neither tier 1 nor
tier 2, and the three tiers are pairwise disjoint. -/
theorem tenant_tiers_characterization (ap : List AuthorPerf)
    (h : (ap.map (fun q => q.author)).Nodup) :
    (∀ p, p ∈ tier1 ap ↔
      p ∈ ap ∧ 1000 ≤ p.totalRatings ∧ (15 : ℚ) / 2 ≤ p.avgRating) ∧
    (∀ p, p ∈ tier2 ap ↔
      p ∈ ap ∧ (500 ≤ p.totalRatings ∧ (7 : ℚ) ≤ p.avgRating) ∧
        p ∉ tier1 ap) ∧
    (∀ p, p ∈ tier3 ap ↔
      p ∈ ap ∧ (100 ≤ p.totalRatings ∧ (13 : ℚ) / 2 ≤ p.avgRating) ∧
        p ∉ tier1 ap ∧ p ∉ tier2 ap) ∧
    (∀ p, p ∈ tier1 ap → p ∉ tier2 ap) ∧
    (∀ p, p ∈ tier1 ap → p ∉ tier3 ap) ∧
    (∀ p, p ∈ tier2 ap → p ∉ tier3 ap) := by
  have hsub1 : tier1 ap ⊆ ap := fun p hp => (List.mem_filter.1 hp).1
  have hsub2 : tier2 ap ⊆ ap := fun p hp => (List.mem_filter.1 hp).1
  have h1 : ∀ p, p ∈ tier1 ap ↔
      p ∈ ap ∧ 1000 ≤ p.totalRatings ∧ (15 : ℚ) / 2 ≤ p.avgRating := by
    intro p
    rw [tier1, List.mem_filter]
    simp only [decide_eq_true_eq]
  have h2 : ∀ p, p ∈ tier2 ap ↔
      p ∈ ap ∧ (500 ≤ p.totalRatings ∧ (7 : ℚ) ≤ p.avgRating) ∧
        p ∉ tier1 ap := by
    intro p
    rw [tier2, List.mem_filter]
    simp only [decide_eq_true_eq]
    constructor
    · rintro ⟨hp, hpred, hname⟩
      exact ⟨hp, hpred, fun hmem =>
        hname ((author_name_mem_iff h hsub1 hp).2 hmem)⟩
    · rintro ⟨hp, hpred, hmem⟩
      exact ⟨hp, hpred, fun hname =>
        hmem ((author_name_mem_iff h hsub1 hp).1 hname)⟩
  have h3 : ∀ p, p ∈ tier3 ap ↔
      p ∈ ap ∧ (100 ≤ p.totalRatings ∧ (13 : ℚ) / 2 ≤ p.avgRating) ∧
        p ∉ tier1 ap ∧ p ∉ tier2 ap := by
    intro p
    rw [tier3, List.mem_filter]
    simp only [decide_eq_true_eq]
    constructor
    · rintro ⟨hp, hcnt, havg, hname1, hname2⟩
      refine ⟨hp, ⟨hcnt, havg⟩, ?_, ?_⟩
      · exact fun hmem => hname1 ((author_name_mem_iff h hsub1 hp).2 hmem)
      · exact fun hmem => hname2 ((author_name_mem_iff h hsub2 hp).2 hmem)
    · rintro ⟨hp, ⟨hcnt, havg⟩, hmem1, hmem2⟩
      refine ⟨hp, hcnt, havg, ?_, ?_⟩
      · exact fun hname => hmem1 ((author_name_mem_iff h hsub1 hp).1 hname)
      · exact fun hname => hmem2 ((author_name_mem_iff h hsub2 hp).1 hname)
  have d12 : ∀ p, p ∈ tier1 ap → p ∉ tier2 ap := by
    intro p hp1 hp2
    rw [tier2, List.mem_filter] at hp2
    simp only [decide_eq_true_eq] at hp2
    exact hp2.2.2 (List.mem_map_of_mem _ hp1)
  have d13 : ∀ p, p ∈ tier1 ap → p ∉ tier3 ap := by
    intro p hp1 hp3
    rw [tier3, List.mem_filter] at hp3
    simp only [decide_eq_true_eq] at hp3
    exact hp3.2.2.2.1 (List.mem_map_of_mem _ hp1)
  have d23 : ∀ p, p ∈ tier2 ap → p ∉ tier3 ap := by
    intro p hp2 hp3
    rw [tier3, List.mem_filter] at hp3
    simp only [decide_eq_true_eq] at hp3
    exact hp3.2.2.2.2 (List.mem_map_of_mem _ hp2)
  exact ⟨h1, h2, h3, d12, d13, d23⟩

/-- Witness for C1 at a concrete four-row author-performance table. -/
theorem tenant_tiers_characterization_instance :
    (∀ p, p ∈ tier1 apEx ↔
      p ∈ apEx ∧ 1000 ≤ p.totalRatings ∧ (15 : ℚ) / 2 ≤ p.avgRating) ∧
    (∀ p, p ∈ tier2 apEx ↔
      p ∈ apEx ∧ (500 ≤ p.totalRatings ∧ (7 : ℚ) ≤ p.avgRating) ∧
        p ∉ tier1 apEx) ∧
    (∀ p, p ∈ tier3 apEx ↔
      p ∈ apEx ∧ (100 ≤ p.totalRatings ∧ (13 : ℚ) / 2 ≤ p.avgRating) ∧
        p ∉ tier1 apEx ∧ p ∉ tier2 apEx) ∧
    (∀ p, p ∈ tier1 apEx → p ∉ tier2 apEx) ∧
    (∀ p, p ∈ tier1 apEx → p ∉ tier3 apEx) ∧
    (∀ p, p ∈ tier2 apEx → p ∉ tier3 apEx) :=
  tenant_tiers_characterization apEx (by decide)
